import Mathlib

/-!
Verification of the `User` module of a MediaWiki API client
(`src/user.rs`).  The module holds the authentication state of a single
API user: an optional user name, an optional numeric user id, a
logged-in flag, and an optional cached JSON blob of user-info metadata.

The JSON values handled by the code (`serde_json::Value`) are embedded
as the inductive `MW.Value`; numbers only ever flow through `as_u64`,
so a number is modelled by the natural it denotes when it is
u64-representable (`Value.asU64` then returns it), and a document whose
number is not u64-representable can equivalently be modelled with any
non-numeric, non-string constructor, since the code only ever reads
numbers through `as_u64` and strings through `as_str`.
-/

namespace MW

/-- Embedding of `serde_json::Value`: null, booleans, u64-representable
numbers, strings, arrays and objects (an object is a key-value list;
`serde_json` maps have unique keys, lookup takes the first match). -/
inductive Value : Type where
  | null : Value
  | bool : Bool → Value
  | num : Nat → Value
  | str : String → Value
  | arr : List Value → Value
  | obj : List (String × Value) → Value

/-- Embedding of `serde_json` `Value` indexing `v[k]` with a string key:
on an object, the first field named `k` (or `Null` when absent); on any
other value, `Null`. -/
def Value.index (v : Value) (k : String) : Value :=
  match v with
  | .obj fields =>
      match fields.find? (fun p => p.1 == k) with
      | some p => p.2
      | none => Value.null
  | _ => Value.null

/-- Embedding of `Value::as_str`: `Some` exactly on strings. -/
def Value.asStr : Value → Option String
  | .str s => some s
  | _ => none

/-- Embedding of `Value::as_u64`: `Some` exactly on u64-representable
numbers (the only numbers in the model). -/
def Value.asU64 : Value → Option Nat
  | .num n => some n
  | _ => none

/-- Embedding of `Value::as_array`: `Some` exactly on arrays. -/
def Value.asArray : Value → Option (List Value)
  | .arr xs => some xs
  | _ => none

/-- Embedding of `serde_json`'s `Value == &str` comparison
(`login["result"] == "Success"`): true exactly on the equal string. -/
def Value.eqStr (v : Value) (s : String) : Bool :=
  match v with
  | .str t => t == s
  | _ => false

/-- Embedding of the `User` struct of `src/user.rs`: login data for the
`Api`. -/
structure User : Type where
  lgusername : Option String
  lguserid : Option Nat
  is_logged_in : Bool
  user_info : Option Value

/-- Embedding of `User::new`: a new, blank, not-logged-in user. -/
def User.new : User :=
  { lgusername := none, lguserid := none, is_logged_in := false, user_info := none }

/-- Embedding of `User::logged_in`. -/
def User.logged_in (u : User) : Bool :=
  u.is_logged_in

/-- Embedding of `User::has_right`: with no cached `user_info`, `None`;
otherwise reads `user_info["query"]["userinfo"]["rights"]`, takes it as
an array (empty when it is not one), and counts the elements whose
string reading (`as_str`, defaulting to `""` for non-strings) equals
`right`; the answer is whether that count is positive. -/
def User.has_right (u : User) (right : String) : Option Bool :=
  match u.user_info with
  | some ui =>
      some (decide (0 <
        ((((ui.index "query").index "userinfo").index "rights").asArray.getD []
          |>.filter (fun x => x.asStr.getD "" == right)).length))
  | none => none

/-- Embedding of `User::is_bot`. -/
def User.is_bot (u : User) : Option Bool :=
  u.has_right "bot"

/-- Embedding of `User::is_autoconfirmed`. -/
def User.is_autoconfirmed (u : User) : Option Bool :=
  u.has_right "autoconfirmed"

/-- Embedding of `User::can_edit`. -/
def User.can_edit (u : User) : Option Bool :=
  u.has_right "edit"

/-- Embedding of `User::can_create_page`. -/
def User.can_create_page (u : User) : Option Bool :=
  u.has_right "createpage"

/-- Embedding of `User::can_upload`. -/
def User.can_upload (u : User) : Option Bool :=
  u.has_right "upload"

/-- Embedding of `User::can_move`. -/
def User.can_move (u : User) : Option Bool :=
  u.has_right "move"

/-- Embedding of `User::can_patrol`. -/
def User.can_patrol (u : User) : Option Bool :=
  u.has_right "patrol"

/-- Embedding of `User::user_name`. -/
def User.user_name (u : User) : Option String :=
  u.lgusername

/-- Embedding of `User::user_id`. -/
def User.user_id (u : User) : Option Nat :=
  u.lguserid

/-- The external API client collaborator: its single operation
`query_api_json(params, method)` is a function from the parameter set
and HTTP method to a result (success document or error message). -/
def Api : Type :=
  List (String × String) → String → Except String Value

/-- The fixed parameter set sent by `load_user_info`. -/
def userinfoParams : List (String × String) :=
  [("action", "query"),
   ("meta", "userinfo"),
   ("uiprop", "blockinfo|groups|groupmemberships|implicitgroups|rights|options|ratelimits|realname|registrationdate|unreadcount|centralids|hasmsg")]

/-- Embedding of `User::load_user_info`: when `user_info` is already
cached, succeed without calling the API; otherwise issue one
`query_api_json(userinfoParams, "GET")` call, cache the document on
success, propagate the error on failure.  The third component counts
the underlying API calls this invocation performed (0 or 1). -/
def User.load_user_info (u : User) (api : Api) :
    Except String Unit × User × Nat :=
  match u.user_info with
  | some _ => (Except.ok (), u, 0)
  | none =>
      match api userinfoParams "GET" with
      | Except.ok res => (Except.ok (), { u with user_info := some res }, 1)
      | Except.error e => (Except.error e, u, 1)

/-- Embedding of `User::set_from_login`.  The source mutates `self`
sequentially: when `result == "Success"` it first writes `lgusername`
(or returns the `lgusername` error before any write), then writes
`lguserid` (or returns the `lguserid` error with `lgusername` already
written), then sets `is_logged_in`; when `result != "Success"` it only
clears `is_logged_in`.  The returned pair is (result, state after the
call). -/
def User.set_from_login (u : User) (login : Value) : Except String Unit × User :=
  if (login.index "result").eqStr "Success" = true then
    match (login.index "lgusername").asStr with
    | none => (Except.error "No lgusername in login result", u)
    | some s =>
        match (login.index "lguserid").asU64 with
        | none => (Except.error "No lguserid in login result",
                   { u with lgusername := some s })
        | some n => (Except.ok (),
                     { u with lgusername := some s, lguserid := some n,
                              is_logged_in := true })
  else
    (Except.ok (), { u with is_logged_in := false })

/-- The rights list the code extracts from a cached user-info document:
the value at `query.userinfo.rights`, read as an array, defaulting to
the empty list. -/
def rightsOf (ui : Value) : List Value :=
  (((ui.index "query").index "userinfo").index "rights").asArray.getD []

/-- Session states reachable from a freshly constructed session by any
sequence of `set_from_login` and `load_user_info` calls. -/
inductive Reachable : User → Prop where
  | new : Reachable User.new
  | login : ∀ (u : User) (l : Value), Reachable u → Reachable (u.set_from_login l).2
  | load : ∀ (u : User) (api : Api), Reachable u → Reachable (u.load_user_info api).2.1

/-- The end-to-end login document of the source's test suite:
`{"result":"Success","lgusername":"test user 1234","lguserid":12345}`. -/
def goodLogin : Value :=
  Value.obj [("result", Value.str "Success"),
             ("lgusername", Value.str "test user 1234"),
             ("lguserid", Value.num 12345)]

/-- A login document with `result == "Success"`, a valid `lgusername`,
and no `lguserid` field. -/
def partialLogin : Value :=
  Value.obj [("result", Value.str "Success"),
             ("lgusername", Value.str "test user 1234")]

/-- A login document whose `result` is not `"Success"`. -/
def failedLogin : Value :=
  Value.obj [("result", Value.str "Failed")]

/-- A user-info document carrying the given rights list at
`query.userinfo.rights`. -/
def infoDoc (rights : List Value) : Value :=
  Value.obj [("query", Value.obj [("userinfo",
    Value.obj [("rights", Value.arr rights)])])]

/-- An API client whose query always fails. -/
def apiFail : Api := fun _ _ => Except.error "network error"

/-- An API client whose query always succeeds with an empty document. -/
def apiOk : Api := fun _ _ => Except.ok (Value.obj [])

/-- C4: on a session whose `user_info` is absent, `has_right` returns
`none` (unknown, not `false`) for every right name, and so do all seven
convenience queries. -/
theorem C4_rights_unknown_without_user_info (u : User) (r : String)
    (h : u.user_info = none) :
    u.has_right r = none ∧ u.is_bot = none ∧ u.is_autoconfirmed = none ∧
    u.can_edit = none ∧ u.can_create_page = none ∧ u.can_upload = none ∧
    u.can_move = none ∧ u.can_patrol = none := by
  simp [User.has_right, User.is_bot, User.is_autoconfirmed, User.can_edit,
        User.can_create_page, User.can_upload, User.can_move,
        User.can_patrol, h]

/-- C4 witness: the fresh session has no `user_info`, and all rights
queries on it answer `none`. -/
theorem C4_witness :
    User.new.has_right "edit" = none ∧ User.new.is_bot = none ∧
    User.new.is_autoconfirmed = none ∧ User.new.can_edit = none ∧
    User.new.can_create_page = none ∧ User.new.can_upload = none ∧
    User.new.can_move = none ∧ User.new.can_patrol = none :=
  C4_rights_unknown_without_user_info User.new "edit" rfl

/-- C5: on any login document with `result == "Success"`, a string
`lgusername` and a u64 `lguserid`, `set_from_login` succeeds and
afterwards `logged_in()` is true and `user_name()`/`user_id()` are
exactly the supplied values. -/
theorem C5_successful_login (u : User) (login : Value) (s : String) (n : Nat)
    (hres : (login.index "result").eqStr "Success" = true)
    (hname : (login.index "lgusername").asStr = some s)
    (hid : (login.index "lguserid").asU64 = some n) :
    (u.set_from_login login).1 = Except.ok () ∧
    (u.set_from_login login).2.logged_in = true ∧
    (u.set_from_login login).2.user_name = some s ∧
    (u.set_from_login login).2.user_id = some n := by
  simp [User.set_from_login, hres, hname, hid, User.logged_in,
        User.user_name, User.user_id]

/-- C5 witness: the source test's end-to-end login document, applied to
a fresh session. -/
theorem C5_witness :
    (User.new.set_from_login goodLogin).1 = Except.ok () ∧
    (User.new.set_from_login goodLogin).2.logged_in = true ∧
    (User.new.set_from_login goodLogin).2.user_name = some "test user 1234" ∧
    (User.new.set_from_login goodLogin).2.user_id = some 12345 :=
  C5_successful_login User.new goodLogin "test user 1234" 12345 rfl rfl rfl

/-- C6: on any login document whose `result` is not `"Success"`,
`set_from_login` succeeds, sets the logged-in flag to false, and leaves
`lgusername`, `lguserid` and `user_info` exactly as they were. -/
theorem C6_failed_login_frame (u : User) (login : Value)
    (hres : (login.index "result").eqStr "Success" = false) :
    (u.set_from_login login).1 = Except.ok () ∧
    (u.set_from_login login).2.is_logged_in = false ∧
    (u.set_from_login login).2.lgusername = u.lgusername ∧
    (u.set_from_login login).2.lguserid = u.lguserid ∧
    (u.set_from_login login).2.user_info = u.user_info := by
  simp [User.set_from_login, hres]

/-- C6 witness: a `result = "Failed"` document applied to the state
reached by a successful login keeps the prior identity fields. -/
theorem C6_witness :
    ((User.new.set_from_login goodLogin).2.set_from_login failedLogin).1 =
      Except.ok () ∧
    ((User.new.set_from_login goodLogin).2.set_from_login failedLogin).2.is_logged_in =
      false ∧
    ((User.new.set_from_login goodLogin).2.set_from_login failedLogin).2.lgusername =
      (User.new.set_from_login goodLogin).2.lgusername ∧
    ((User.new.set_from_login goodLogin).2.set_from_login failedLogin).2.lguserid =
      (User.new.set_from_login goodLogin).2.lguserid ∧
    ((User.new.set_from_login goodLogin).2.set_from_login failedLogin).2.user_info =
      (User.new.set_from_login goodLogin).2.user_info :=
  C6_failed_login_frame (User.new.set_from_login goodLogin).2 failedLogin rfl

/-- C8: when `user_info` is absent and the API client's query fails,
`load_user_info` returns that error unchanged, issues exactly one API
call, and returns the session state exactly as it was (in particular
`user_info` stays absent, so the call can be retried). -/
theorem C8_load_error_propagates (u : User) (api : Api) (e : String)
    (habs : u.user_info = none)
    (hfail : api userinfoParams "GET" = Except.error e) :
    u.load_user_info api = (Except.error e, u, 1) := by
  simp [User.load_user_info, habs, hfail]

/-- C8 witness: a failing client on a fresh session. -/
theorem C8_witness :
    User.new.load_user_info apiFail = (Except.error "network error", User.new, 1) :=
  C8_load_error_propagates User.new apiFail "network error" rfl rfl

/-- C1 counterexample: on the fresh session (whose `lgusername` is
`none`) and a `result == "Success"` document carrying `lgusername` but
no `lguserid`, `set_from_login` returns the descriptive error, yet the
post-state's `lgusername` has been overwritten — the session state is
not left as it was, so identity mutation is partial. -/
theorem C1_counterexample :
    (User.new.set_from_login partialLogin).1 =
      Except.error "No lguserid in login result" ∧
    User.new.lgusername = none ∧
    (User.new.set_from_login partialLogin).2.lgusername = some "test user 1234" :=
  ⟨rfl, rfl, rfl⟩

/-- C1 (amended): on a `result == "Success"` document, a missing or
mistyped `lgusername` fails with the descriptive error and leaves the
state exactly unchanged; a valid `lgusername` `s` with missing or
mistyped `lguserid` fails with the descriptive error and leaves
`lguserid`, `is_logged_in` and `user_info` unchanged, but has already
overwritten `lgusername` with `s`. -/
theorem C1_amended_malformed_success_login (u : User) (login : Value)
    (hres : (login.index "result").eqStr "Success" = true) :
    ((login.index "lgusername").asStr = none →
      u.set_from_login login =
        (Except.error "No lgusername in login result", u)) ∧
    (∀ s : String, (login.index "lgusername").asStr = some s →
      (login.index "lguserid").asU64 = none →
      u.set_from_login login =
        (Except.error "No lguserid in login result",
         { u with lgusername := some s })) := by
  constructor
  · intro hname
    simp [User.set_from_login, hres, hname]
  · intro s hname hid
    simp [User.set_from_login, hres, hname, hid]

/-- C1 witness: the partial-login document on the fresh session. -/
theorem C1_witness :
    User.new.set_from_login partialLogin =
      (Except.error "No lguserid in login result",
       { User.new with lgusername := some "test user 1234" }) :=
  (C1_amended_malformed_success_login User.new partialLogin rfl).2
    "test user 1234" rfl rfl

/-- C2 counterexample: one `set_from_login` call on the fresh session
with a `"Success"` document that has `lgusername` but no `lguserid`
reaches a state where `lgusername` is present and `lguserid` absent —
the two identity fields are not both present or both absent. -/
theorem C2_counterexample :
    Reachable (User.new.set_from_login partialLogin).2 ∧
    (User.new.set_from_login partialLogin).2.lgusername = some "test user 1234" ∧
    (User.new.set_from_login partialLogin).2.lguserid = none :=
  ⟨Reachable.login User.new partialLogin Reachable.new, rfl, rfl⟩

/-- C2 (amended): in every reachable session state, a present
`lguserid` implies a present `lgusername` (only this direction holds:
`lguserid` is only ever written together with `lgusername`, while
`lgusername` can be written alone when `lguserid` is rejected). -/
theorem C2_amended_userid_implies_username (u : User) (h : Reachable u) :
    u.lguserid.isSome = true → u.lgusername.isSome = true := by
  induction h with
  | new => simp [User.new]
  | login u0 l _ ih =>
      simp only [User.set_from_login]
      split
      · split
        · exact ih
        · split
          · intro _
            simp
          · intro _
            simp
      · exact ih
  | load u0 api _ ih =>
      simp only [User.load_user_info]
      split
      · exact ih
      · split
        · exact ih
        · exact ih

/-- C2 witness: after a fully successful login both fields are present;
the amended implication applied there yields the user name. -/
theorem C2_witness :
    (User.new.set_from_login goodLogin).2.lgusername.isSome = true :=
  C2_amended_userid_implies_username (User.new.set_from_login goodLogin).2
    (Reachable.login User.new goodLogin Reachable.new) rfl

/-- C9: in every reachable session state, a true logged-in flag implies
both identity fields are present. -/
theorem C9_logged_in_implies_identity (u : User) (h : Reachable u) :
    u.is_logged_in = true →
    u.lgusername.isSome = true ∧ u.lguserid.isSome = true := by
  induction h with
  | new => simp [User.new]
  | login u0 l _ ih =>
      simp only [User.set_from_login]
      split
      · split
        · exact ih
        · split
          · intro hli
            rcases ih hli with ⟨_, h2⟩
            exact ⟨rfl, h2⟩
          · intro _
            exact ⟨rfl, rfl⟩
      · intro hli
        simp at hli
  | load u0 api _ ih =>
      simp only [User.load_user_info]
      split
      · exact ih
      · split
        · exact ih
        · exact ih

/-- C9 witness: the state after a fully successful login is logged in,
and the invariant yields both identity fields there. -/
theorem C9_witness :
    (User.new.set_from_login goodLogin).2.lgusername.isSome = true ∧
    (User.new.set_from_login goodLogin).2.lguserid.isSome = true :=
  C9_logged_in_implies_identity (User.new.set_from_login goodLogin).2
    (Reachable.login User.new goodLogin Reachable.new) rfl

/-- A session whose cached user-info rights list is the one-element
array `[42]`, whose element is not a string. -/
def nonStringRightsUser : User :=
  { User.new with user_info := some (infoDoc [Value.num 42]) }

/-- The rights list of the source's test expectations:
`["edit", "createaccount", "autoconfirmed"]`. -/
def specRights : List Value :=
  [Value.str "edit", Value.str "createaccount", Value.str "autoconfirmed"]

/-- A session whose cached user-info rights list is `specRights`. -/
def specRightsUser : User :=
  { User.new with user_info := some (infoDoc specRights) }

/-- C3 counterexample: on a session whose rights sequence is `[42]`,
the right name `""` does not appear in the sequence as a string (the
only element is the non-string `42`), yet `has_right ""` answers
`some true` instead of the `some false` the claim requires. -/
theorem C3_counterexample :
    nonStringRightsUser.has_right "" = some true ∧
    rightsOf (infoDoc [Value.num 42]) = [Value.num 42] ∧
    (Value.num 42).asStr = none :=
  ⟨rfl, rfl, rfl⟩

/-- C3 (amended): with `user_info` cached, `has_right r` always answers
(never errors), and answers `some true` exactly when some element of
the sequence at `query.userinfo.rights`, read as a string with
non-strings reading as `""`, equals `r`; a missing, malformed or
non-sequence path gives the empty list and hence `some false`. -/
theorem C3_amended_has_right_spec (u : User) (ui : Value) (r : String)
    (h : u.user_info = some ui) :
    (u.has_right r).isSome = true ∧
    (u.has_right r = some true ↔ ∃ x ∈ rightsOf ui, x.asStr.getD "" = r) := by
  constructor
  · simp [User.has_right, h]
  · simp only [User.has_right, h, rightsOf, Option.some.injEq,
      ← List.countP_eq_length_filter, decide_eq_true_eq, List.countP_pos_iff,
      beq_iff_eq]

/-- C3 witness: the source test's rights list, queried for `"edit"`. -/
theorem C3_witness :
    (specRightsUser.has_right "edit").isSome = true ∧
    (specRightsUser.has_right "edit" = some true ↔
      ∃ x ∈ rightsOf (infoDoc specRights), x.asStr.getD "" = "edit") :=
  C3_amended_has_right_spec specRightsUser (infoDoc specRights) "edit" rfl

/-- C10: whenever the cached rights sequence contains a non-string
element, `has_right ""` answers `some true`, although no right named
`""` was granted — the non-string element is compared as the empty
string. -/
theorem C10_nonstring_right_matches_empty (u : User) (ui : Value) (x : Value)
    (h : u.user_info = some ui) (hx : x ∈ rightsOf ui)
    (hs : x.asStr = none) :
    u.has_right "" = some true := by
  simp only [User.has_right, h, Option.some.injEq,
    ← List.countP_eq_length_filter, decide_eq_true_eq, List.countP_pos_iff]
  exact ⟨x, hx, by simp [hs]⟩

/-- C10 witness: the session whose rights sequence is `[42]`. -/
theorem C10_witness : nonStringRightsUser.has_right "" = some true :=
  C10_nonstring_right_matches_empty nonStringRightsUser
    (infoDoc [Value.num 42]) (Value.num 42) rfl (List.Mem.head _) rfl

/-- C7 counterexample: with an always-failing API client, two
sequential `load_user_info` calls on the fresh session issue two
underlying API queries — not at most one. -/
theorem C7_counterexample :
    (User.new.load_user_info apiFail).2.2 +
      ((User.new.load_user_info apiFail).2.1.load_user_info apiFail).2.2 = 2 ∧
    ¬ ((User.new.load_user_info apiFail).2.2 +
      ((User.new.load_user_info apiFail).2.1.load_user_info apiFail).2.2 ≤ 1) := by
  exact ⟨rfl, by decide⟩

/-- C7 (amended): `load_user_info` is an idempotent cache fill: with
`user_info` present it succeeds with no API call and an unchanged
state; consequently, whenever the first of two sequential calls
succeeds, the second also succeeds and the two calls together issue at
most one underlying API query. -/
theorem C7_amended_cache_fill (u : User) (api : Api) :
    (∀ ui : Value, u.user_info = some ui →
      u.load_user_info api = (Except.ok (), u, 0)) ∧
    ((u.load_user_info api).1 = Except.ok () →
      ((u.load_user_info api).2.1.load_user_info api).1 = Except.ok () ∧
      (u.load_user_info api).2.2 +
        ((u.load_user_info api).2.1.load_user_info api).2.2 ≤ 1) := by
  cases hui : u.user_info with
  | some ui =>
      constructor
      · intro _ _
        simp [User.load_user_info, hui]
      · intro _
        simp [User.load_user_info, hui]
  | none =>
      constructor
      · intro ui hcontra
        exact Option.noConfusion hcontra
      · cases hapi : api userinfoParams "GET" with
        | ok res =>
            intro _
            simp [User.load_user_info, hui, hapi]
        | error e =>
            intro hok
            rw [show (u.load_user_info api).1 = Except.error e by
              simp [User.load_user_info, hui, hapi]] at hok
            cases hok

/-- C7 witness: a succeeding client on the fresh session — the first
call succeeds, so the second succeeds and at most one query is made. -/
theorem C7_witness :
    ((User.new.load_user_info apiOk).2.1.load_user_info apiOk).1 =
      Except.ok () ∧
    (User.new.load_user_info apiOk).2.2 +
      ((User.new.load_user_info apiOk).2.1.load_user_info apiOk).2.2 ≤ 1 :=
  (C7_amended_cache_fill User.new apiOk).2 rfl

end MW
